import Mathlib

set_option maxRecDepth 100000

/-!
Verification development for the TaobaoLiveWebFetcher repository
(src/liveMan.py, src/main.py).

The Python source is shallowly embedded:
* Python byte strings are `List Nat` (each element a byte value < 256);
* Python unicode strings are `List Nat` (each element a unicode code point);
* Python JSON values (the results of `json.loads`) are the inductive type `Json`;
* stateful loop bodies are explicit state-passing functions; Python exceptions
  are modelled with `Except Unit`;
* machine arithmetic used by the MD5 model is `Nat` with explicit `% 2^32`.

Standard-library calls of the source (`json.loads`, `bytes.decode('utf-8',
errors='ignore')`, `hashlib.md5`, `str.split`, `re` digit matching) are
modelled by executable Lean functions defined below, next to the embedded
repository functions that call them.
-/

/-- Python `str` literal as a list of unicode code points. -/
def pyStr (s : String) : List Nat := s.data.map Char.toNat

/-- JSON values as produced by Python's `json.loads`.  Object keys and string
values are lists of unicode code points.  Numbers are restricted to integers:
the repository's payloads are decoded with the default `json.loads` and the
claims under verification only involve integer-valued fields, so the float
case of Python JSON numbers is outside the modelled input class. -/
inductive Json where
  | null : Json
  | bool : Bool → Json
  | num : Int → Json
  | str : List Nat → Json
  | arr : List Json → Json
  | obj : List (List Nat × Json) → Json

/-! ## FrameDecoder: ProtobufMessageParser.parse_base64_message
(src/liveMan.py lines 21-84)

The Python function base64-decodes its input and then scans the decoded byte
buffer.  The embedding works directly on the decoded byte buffer (`base64.
b64decode` is a stdlib bijection onto byte strings; every claim about the
decoder quantifies over the decoded bytes). -/

/-- Lexer state of the inner scanning loop of `parse_base64_message`
(lines 39-42): brace depth, in-string flag, escape flag. -/
structure ScanSt where
  depth : Int
  inStr : Bool
  esc : Bool

/-- Initial lexer state (`brace_count = 0`, `in_string = False`,
`escaped = False`, lines 39-41). -/
def scanInit : ScanSt := ⟨0, false, false⟩

/-- One step of the inner scanning loop of `parse_base64_message`
(lines 44-61).  A byte `b ≥ 128` is replaced by `'?'` (code 63) exactly as in
line 45 before the state update. -/
def scanStep (st : ScanSt) (b : Nat) : ScanSt :=
  let c := if b < 128 then b else 63
  if !st.inStr then
    if c = 123 then { st with depth := st.depth + 1 }
    else if c = 125 then { st with depth := st.depth - 1 }
    else if c = 34 then { st with inStr := true }
    else st
  else
    if st.esc then { st with esc := false }
    else if c = 92 then { st with esc := true }
    else if c = 34 then { st with inStr := false }
    else st

/-- The inner scanning loop of `parse_base64_message` (lines 44-64), started
at relative position `k` inside the candidate span.  After consuming a byte
the loop stops when `brace_count == 0 and i > json_start` (line 62), i.e.
when the updated depth is zero and at least two bytes of the span have been
consumed; the returned value is the length of the consumed span
(`json_end - json_start + 1`).  `none` models `json_end == -1`. -/
def scanGo : ScanSt → Nat → List Nat → Option Nat
  | _, _, [] => none
  | st, k, b :: rest =>
    let st2 := scanStep st b
    if st2.depth = 0 ∧ 1 ≤ k then some (k + 1) else scanGo st2 (k + 1) rest

/-- Length of the brace-balanced candidate span at the head of `l`
(the Python scan from `json_start`, lines 39-64). -/
def findSpanLen (l : List Nat) : Option Nat := scanGo scanInit 0 l

/-! ### Model of `bytes.decode('utf-8', errors='ignore')` (line 68). -/

/-- Is `b` a UTF-8 continuation byte? -/
def utf8Cont (b : Nat) : Bool := 128 ≤ b && b ≤ 191

/-- Valid range of the first continuation byte after lead `b`
(UTF-8 shortest-form and surrogate restrictions, as enforced by CPython). -/
def utf8Cont1Ok (b c : Nat) : Bool :=
  if b = 224 then 160 ≤ c && c ≤ 191
  else if b = 237 then 128 ≤ c && c ≤ 159
  else if b = 240 then 144 ≤ c && c ≤ 191
  else if b = 244 then 128 ≤ c && c ≤ 143
  else utf8Cont c

/-- Fueled UTF-8 decoder with `errors='ignore'`: invalid maximal subparts are
skipped, decoding restarts at the first byte that does not extend the invalid
sequence.  Each step consumes at least one byte, so fuel `l.length`
suffices. -/
def utf8IgnoreF : Nat → List Nat → List Nat
  | 0, _ => []
  | _, [] => []
  | fuel + 1, b :: rest =>
    if b ≤ 127 then b :: utf8IgnoreF fuel rest
    else if 194 ≤ b && b ≤ 223 then
      match rest with
      | [] => []
      | c :: r2 =>
        if utf8Cont c then ((b - 192) * 64 + (c - 128)) :: utf8IgnoreF fuel r2
        else utf8IgnoreF fuel rest
    else if 224 ≤ b && b ≤ 239 then
      match rest with
      | [] => []
      | c1 :: r2 =>
        if utf8Cont1Ok b c1 then
          match r2 with
          | [] => []
          | c2 :: r3 =>
            if utf8Cont c2 then
              ((b - 224) * 4096 + (c1 - 128) * 64 + (c2 - 128)) :: utf8IgnoreF fuel r3
            else utf8IgnoreF fuel r2
        else utf8IgnoreF fuel rest
    else if 240 ≤ b && b ≤ 244 then
      match rest with
      | [] => []
      | c1 :: r2 =>
        if utf8Cont1Ok b c1 then
          match r2 with
          | [] => []
          | c2 :: r3 =>
            if utf8Cont c2 then
              match r3 with
              | [] => []
              | c3 :: r4 =>
                if utf8Cont c3 then
                  ((b - 240) * 262144 + (c1 - 128) * 4096 + (c2 - 128) * 64 + (c3 - 128)) ::
                    utf8IgnoreF fuel r4
                else utf8IgnoreF fuel r3
            else utf8IgnoreF fuel r2
        else utf8IgnoreF fuel rest
    else utf8IgnoreF fuel rest

/-- `bytes.decode('utf-8', errors='ignore')`: bytes to code points, dropping
undecodable subsequences. -/
def utf8Ignore (l : List Nat) : List Nat := utf8IgnoreF l.length l

/-- Strict UTF-8 validity of a byte string (whether `bytes.decode('utf-8')`
with default strict errors would succeed). -/
def utf8ValidF : Nat → List Nat → Bool
  | 0, l => l.isEmpty
  | _, [] => true
  | fuel + 1, b :: rest =>
    if b ≤ 127 then utf8ValidF fuel rest
    else if 194 ≤ b && b ≤ 223 then
      match rest with
      | c :: r2 => utf8Cont c && utf8ValidF fuel r2
      | [] => false
    else if 224 ≤ b && b ≤ 239 then
      match rest with
      | c1 :: c2 :: r3 => utf8Cont1Ok b c1 && utf8Cont c2 && utf8ValidF fuel r3
      | _ => false
    else if 240 ≤ b && b ≤ 244 then
      match rest with
      | c1 :: c2 :: c3 :: r4 =>
        utf8Cont1Ok b c1 && utf8Cont c2 && utf8Cont c3 && utf8ValidF fuel r4
      | _ => false
    else false

/-- Whether the byte string is valid UTF-8. -/
def utf8Valid (l : List Nat) : Bool := utf8ValidF l.length l

/-! ### Model of Python `json.loads` (line 71), restricted to integer
numbers (no floats) and the standard two-character escapes plus `\uXXXX`. -/

/-- JSON whitespace. -/
def jsonWs (c : Nat) : Bool := c = 32 || c = 9 || c = 10 || c = 13

/-- Drop leading JSON whitespace. -/
def skipWs (l : List Nat) : List Nat := l.dropWhile jsonWs

/-- ASCII decimal digit. -/
def isDigitB (c : Nat) : Bool := 48 ≤ c && c ≤ 57

/-- Value of a hex digit. -/
def hexVal (c : Nat) : Option Nat :=
  if 48 ≤ c ∧ c ≤ 57 then some (c - 48)
  else if 97 ≤ c ∧ c ≤ 102 then some (c - 87)
  else if 65 ≤ c ∧ c ≤ 70 then some (c - 55)
  else none

/-- Single-character JSON escapes. -/
def escChar (c : Nat) : Option Nat :=
  if c = 34 then some 34
  else if c = 92 then some 92
  else if c = 47 then some 47
  else if c = 98 then some 8
  else if c = 102 then some 12
  else if c = 110 then some 10
  else if c = 114 then some 13
  else if c = 116 then some 9
  else none

/-- Parse the body of a JSON string after the opening quote; returns the
decoded code points and the remaining input after the closing quote. -/
def parseStrBody : List Nat → Option (List Nat × List Nat)
  | [] => none
  | 34 :: rest => some ([], rest)
  | 92 :: 117 :: a :: b :: c :: d :: rest => do
    let ha ← hexVal a
    let hb ← hexVal b
    let hc ← hexVal c
    let hd ← hexVal d
    let (s, r) ← parseStrBody rest
    some ((((ha * 16 + hb) * 16 + hc) * 16 + hd) :: s, r)
  | 92 :: e :: rest => do
    let ch ← escChar e
    let (s, r) ← parseStrBody rest
    some (ch :: s, r)
  | c :: rest =>
    if c < 32 then none
    else do
      let (s, r) ← parseStrBody rest
      some (c :: s, r)

/-- Numeric value of an ASCII digit string. -/
def digitsToNat (ds : List Nat) : Nat := ds.foldl (fun a c => a * 10 + (c - 48)) 0

/-- Parse a JSON integer token (sign and digit run, leading zeros rejected,
fraction/exponent outside the modelled class). -/
def parseNumTok (l : List Nat) : Option (Int × List Nat) :=
  let (neg, l1) := match l with
    | 45 :: r => (true, r)
    | _ => (false, l)
  let ds := l1.takeWhile isDigitB
  let rest := l1.dropWhile isDigitB
  if ds.isEmpty then none
  else if 1 < ds.length ∧ ds.headD 0 = 48 then none
  else
    match rest with
    | 46 :: _ => none
    | 101 :: _ => none
    | 69 :: _ => none
    | _ =>
      let v : Int := digitsToNat ds
      some (if neg then -v else v, rest)

/-- Insert a key/value pair as Python dict assignment during `json.loads`:
a repeated key keeps its position and takes the new value. -/
def objInsert : List (List Nat × Json) → List Nat → Json → List (List Nat × Json)
  | [], k, v => [(k, v)]
  | (k', v') :: rest, k, v =>
    if k' = k then (k', v) :: rest else (k', v') :: objInsert rest k v

mutual

/-- Fueled recursive-descent parser for one JSON value. -/
def parseVal : Nat → List Nat → Option (Json × List Nat)
  | 0, _ => none
  | fuel + 1, l =>
    match skipWs l with
    | [] => none
    | c :: rest =>
      if c = 123 then parseObjBody fuel rest
      else if c = 91 then parseArrBody fuel rest
      else if c = 34 then (parseStrBody rest).map fun p => (Json.str p.1, p.2)
      else if c = 110 then
        match rest with
        | 117 :: 108 :: 108 :: r => some (Json.null, r)
        | _ => none
      else if c = 116 then
        match rest with
        | 114 :: 117 :: 101 :: r => some (Json.bool true, r)
        | _ => none
      else if c = 102 then
        match rest with
        | 97 :: 108 :: 115 :: 101 :: r => some (Json.bool false, r)
        | _ => none
      else (parseNumTok (c :: rest)).map fun p => (Json.num p.1, p.2)

/-- Parse an object body after `{`. -/
def parseObjBody : Nat → List Nat → Option (Json × List Nat)
  | 0, _ => none
  | fuel + 1, l =>
    match skipWs l with
    | 125 :: r => some (Json.obj [], r)
    | _ => parseMembers fuel l []

/-- Parse the members of an object. -/
def parseMembers : Nat → List Nat → List (List Nat × Json) → Option (Json × List Nat)
  | 0, _, _ => none
  | fuel + 1, l, acc =>
    match skipWs l with
    | 34 :: r => do
      let (k, r1) ← parseStrBody r
      match skipWs r1 with
      | 58 :: r2 => do
        let (v, r3) ← parseVal fuel r2
        let acc2 := objInsert acc k v
        match skipWs r3 with
        | 44 :: r4 => parseMembers fuel r4 acc2
        | 125 :: r4 => some (Json.obj acc2, r4)
        | _ => none
      | _ => none
    | _ => none

/-- Parse an array body after `[`. -/
def parseArrBody : Nat → List Nat → Option (Json × List Nat)
  | 0, _ => none
  | fuel + 1, l =>
    match skipWs l with
    | 93 :: r => some (Json.arr [], r)
    | _ => parseItems fuel l []

/-- Parse the items of an array. -/
def parseItems : Nat → List Nat → List Json → Option (Json × List Nat)
  | 0, _, _ => none
  | fuel + 1, l, acc => do
    let (v, r) ← parseVal fuel l
    match skipWs r with
    | 44 :: r2 => parseItems fuel r2 (acc ++ [v])
    | 93 :: r2 => some (Json.arr (acc ++ [v]), r2)
    | _ => none

end

/-- Model of Python `json.loads` on a decoded text (code-point list).  The
fuel `8 * (length + 1)` dominates the parser's call depth: every three
consecutive calls consume at least one input character. -/
def jsonLoads (l : List Nat) : Option Json :=
  match parseVal (8 * (l.length + 1)) l with
  | some (v, rest) => if (skipWs rest).isEmpty then some v else none
  | none => none

/-- Fueled embedding of the outer `while current_pos < len(decoded_bytes)`
loop of `parse_base64_message` (lines 29-78).  The search for the next `{`
byte (lines 30-37) is `dropWhile`: the loop works at `json_start`, i.e. on
the suffix of the buffer from the next unconsumed `{`; `json_start == -1`
corresponds to the empty suffix.  When a balanced span is found its bytes are
decoded with `errors='ignore'` and fed to `json.loads`; a parse failure skips
the span (lines 70-74); either way the scan resumes at `json_end + 1`
(line 76), i.e. on the remaining suffix.  `json_end == -1` stops the loop
(lines 77-78).  Each iteration consumes at least two bytes, so fuel
`l.length` suffices. -/
def parseLoopF : Nat → List Nat → List Json
  | 0, _ => []
  | fuel + 1, l =>
    let suffix := l.dropWhile fun b => !(b == 123)
    match findSpanLen suffix with
    | none => []
    | some k =>
      let spanBytes := suffix.take k
      let rest := suffix.drop k
      (match jsonLoads (utf8Ignore spanBytes) with
       | some v => [v]
       | none => []) ++ parseLoopF fuel rest

/-- `ProtobufMessageParser.parse_base64_message` (lines 21-84), embedded on
the base64-decoded byte buffer; the returned value is the `json_objects`
field of the Python result. -/
def parse_base64_message (decoded : List Nat) : List Json :=
  parseLoopF decoded.length decoded

/-! ## EventRouter: TaobaoLiveWebFetcher._process_message and the message
handlers (src/liveMan.py lines 322-537)

Python-semantics helpers on `Json` values.  Python exceptions are modelled by
`Except Unit`; `_process_message` swallows every exception of its handlers
(lines 345-346), which the embedding applies at the end. -/

/-- Python substring test `needle in hay` on strings. -/
def isSubL (needle : List Nat) : List Nat → Bool
  | [] => needle.isEmpty
  | c :: rest => needle.isPrefixOf (c :: rest) || isSubL needle rest

/-- Is the value a Python dict? -/
def Json.isDict : Json → Bool
  | .obj _ => true
  | _ => false

/-- Python `key in d` for a dict `d`. -/
def hasKey (j : Json) (k : List Nat) : Bool :=
  match j with
  | .obj kvs => kvs.any fun p => p.1 == k
  | _ => false

/-- Python `d.get(key)` (no default) on a dict, `None` when absent. -/
def dictLookup (j : Json) (k : List Nat) : Option Json :=
  match j with
  | .obj kvs => (kvs.find? fun p => p.1 == k).map (·.2)
  | _ => none

/-- Python `d.get(key, default)` on a dict value; callers guard with
`Json.isDict` where the source could raise `AttributeError`. -/
def pyGet (j : Json) (k : List Nat) (d : Json) : Json := (dictLookup j k).getD d

/-- Python `d.get(key, default)` where `d` may not be a dict: a non-dict has
no `.get`, raising `AttributeError`. -/
def pyGetE (j : Json) (k : List Nat) (d : Json) : Except Unit Json :=
  match j with
  | .obj _ => .ok (pyGet j k d)
  | _ => .error ()

/-- Python truthiness of a JSON value. -/
def pyTruthy : Json → Bool
  | .null => false
  | .bool b => b
  | .num n => !(n == 0)
  | .str s => !s.isEmpty
  | .arr xs => !xs.isEmpty
  | .obj kvs => !kvs.isEmpty

/-- Python `needle in hay` where `needle` is a `str`: substring test for a
`str`, element equality for a `list`, key membership for a `dict`,
`TypeError` otherwise. -/
def pyInE (needle : List Nat) (hay : Json) : Except Unit Bool :=
  match hay with
  | .str s => .ok (isSubL needle s)
  | .arr xs =>
    .ok (xs.any fun x => match x with
      | .str s => s == needle
      | _ => false)
  | .obj kvs => .ok (kvs.any fun p => p.1 == needle)
  | _ => .error ()

/-- Python `j == n` for a literal int `n` (`True`/`False` compare as 1/0). -/
def pyEqInt (j : Json) (n : Int) : Bool :=
  match j with
  | .num m => m == n
  | .bool b => (if b then (1 : Int) else 0) == n
  | _ => false

/-- Python `j == s` for a literal str `s`. -/
def pyEqStr (j : Json) (s : List Nat) : Bool :=
  match j with
  | .str t => t == s
  | _ => false

/-- Decimal digits of a natural number, as code points. -/
def natDec (n : Nat) : List Nat := (Nat.toDigits 10 n).map Char.toNat

/-- The typed events the handlers print (lines 393-501); each variant
carries the values interpolated into the corresponding `print`. -/
inductive Event where
  | stats (current total : Json)
  | member (userId nick : Json) (badges : List (List Nat))
  | like (dig : Json)
  | likeAnon (count nick : Json)
  | chat (userId nick content : Json)
  | gift (nick giftName count : Json)

/-- `_parseRoomUserSeqMsg` (lines 458-462). -/
def parseRoomUserSeqMsg (p : Json) : Event :=
  .stats (pyGet p (pyStr "onlineCount") (pyGet p (pyStr "current_viewers") (Json.num 0)))
    (pyGet p (pyStr "totalCount") (pyGet p (pyStr "total_viewers") (Json.num 0)))

/-- `_safe_int_convert` (lines 504-514): `str.isdigit` strings convert, ints
convert (a Python `bool` is an `int`), everything else falls back to the
default. -/
def safe_int_convert (v : Json) (default : Int) : Int :=
  match v with
  | .str s => if !s.isEmpty && s.all isDigitB then (digitsToNat s : Int) else default
  | .num n => n
  | .bool b => if b then 1 else 0
  | _ => default

/-- `_parseMemberMsg` (lines 435-456).  `identify.get` raises when the
`identify` field is not a dict. -/
def parseMemberMsgE (p : Json) : Except Unit Event := do
  let nick := pyGet p (pyStr "nick") (Json.str (pyStr "匿名"))
  let userId := pyGet p (pyStr "userid") (pyGet p (pyStr "userId") (Json.str (pyStr "0")))
  let identify := pyGet p (pyStr "identify") (Json.obj [])
  let vipVal ← pyGetE identify (pyStr "VIP_USER") (Json.str (pyStr "0"))
  let isVip := pyEqStr vipVal (pyStr "1")
  let isMember := pyEqStr (pyGet p (pyStr "isMember") (Json.str (pyStr "false"))) (pyStr "true")
  let fanVal ← pyGetE identify (pyStr "fanLevel") (Json.num 0)
  let fanLevel := safe_int_convert fanVal 0
  let badges :=
    (if isVip then [pyStr "VIP"] else []) ++
    (if isMember then [pyStr "会员"] else []) ++
    (if 0 < fanLevel then [pyStr "粉丝" ++ natDec fanLevel.toNat ++ pyStr "级"] else [])
  .ok (.member userId nick badges)

/-- `_parseLikeMsg` (lines 425-433).  In the first branch
`payload.get('value', {}).get('dig', 1)` raises when the `value` field is
not a dict. -/
def parseLikeMsgE (p : Json) : Except Unit Event :=
  if hasKey p (pyStr "value") then do
    let dig ← pyGetE (pyGet p (pyStr "value") (Json.obj [])) (pyStr "dig") (Json.num 1)
    .ok (.like dig)
  else
    .ok (.likeAnon (pyGet p (pyStr "count") (Json.num 1))
      (pyGet p (pyStr "nick") (Json.str (pyStr "匿名用户"))))

/-- The gift keyword list of `_is_gift_message` (line 518). -/
def gift_keywords : List (List Nat) :=
  [pyStr "送出了", pyStr "打赏了", pyStr "礼物", pyStr "小心心", pyStr "棒棒糖"]

/-- `any(keyword in content for keyword in gift_keywords)` (line 519) with
Python's short-circuit evaluation; `keyword in content` raises `TypeError`
for non-container `content`. -/
def anyKeywordInE : List (List Nat) → Json → Except Unit Bool
  | [], _ => .ok false
  | kw :: rest, c => do
    let b ← pyInE kw c
    if b then .ok true else anyKeywordInE rest c

/-- `_is_gift_message` (lines 516-519) on an actual string. -/
def is_gift_message (content : List Nat) : Bool :=
  gift_keywords.any fun kw => isSubL kw content

/-- `_parseChatMsg` (lines 394-409).  The handler extracts nick/user/content
from the comment-API shape (`publisherNick` present) or the protobuf shape,
then prints a chat line only when the content is truthy and is NOT a gift
message; a gift-keyword content produces no output at all (there is no else
branch at line 408). -/
def parseChatMsgE (p : Json) : Except Unit (Option Event) := do
  let fields :=
    if hasKey p (pyStr "publisherNick") then
      (pyGet p (pyStr "publisherNick") (Json.str (pyStr "匿名")),
       pyGet p (pyStr "publisherId") (Json.str (pyStr "0")),
       pyGet p (pyStr "content") (Json.str []))
    else
      (pyGet p (pyStr "nick") (Json.str (pyStr "匿名")),
       pyGet p (pyStr "userid") (pyGet p (pyStr "userId") (Json.str (pyStr "0"))),
       pyGet p (pyStr "content") (pyGet p (pyStr "text") (Json.str [])))
  let nick := fields.1
  let userId := fields.2.1
  let content := fields.2.2
  if pyTruthy content then do
    let g ← anyKeywordInE gift_keywords content
    if g then .ok none else .ok (some (.chat userId nick content))
  else .ok none

/-- `_parseGiftMsg` (lines 411-423).  The else branch calls `.get` on a
non-dict payload, which raises `AttributeError` for every non-dict, so it is
modelled as an error. -/
def parseGiftMsgE (p : Json) : Except Unit Event :=
  if p.isDict then
    .ok (.gift (pyGet p (pyStr "nick") (pyGet p (pyStr "userName") (Json.str (pyStr "匿名"))))
      (pyGet p (pyStr "giftName") (pyGet p (pyStr "itemName") (Json.str (pyStr "未知礼物"))))
      (pyGet p (pyStr "count") (pyGet p (pyStr "num") (Json.num 1))))
  else .error ()

/-- The condition of the like branch (line 335):
`'value' in json_obj and 'dig' in json_obj.get('value', {})`, with Python's
short-circuit `and` and a possible `TypeError` from `in`. -/
def digCheckE (j : Json) : Except Unit Bool :=
  if hasKey j (pyStr "value") then
    pyInE (pyStr "dig") (pyGet j (pyStr "value") (Json.obj []))
  else .ok false

/-- The dispatch chain of `_process_message` (lines 322-346) before the
enclosing `try`/`except`.  Note there is no fallback branch: a dict that
matches no shape, and a `subType` other than 10001/10002, produce no
event. -/
def processMessageE (j : Json) : Except Unit (Option Event) :=
  if !j.isDict then .ok none
  else if hasKey j (pyStr "viewCountFormat") || hasKey j (pyStr "pageViewCount") then
    .ok (some (parseRoomUserSeqMsg j))
  else if hasKey j (pyStr "nick") &&
      (hasKey j (pyStr "flowSourceText") || hasKey j (pyStr "subType")) then
    (parseMemberMsgE j).map some
  else do
    let dig ← digCheckE j
    if dig then (parseLikeMsgE j).map some
    else if hasKey j (pyStr "subType") then
      let st := pyGet j (pyStr "subType") (Json.num 0)
      if pyEqInt st 10001 then parseChatMsgE j
      else if pyEqInt st 10002 then (parseGiftMsgE j).map some
      else .ok none
    else .ok none

/-- `_process_message` (lines 322-346): the `except`/`pass` swallows every
handler exception, producing no event. -/
def process_message (j : Json) : Option Event :=
  match processMessageE j with
  | .ok e => e
  | .error _ => none

/-! ### Gift extraction from comment text:
`_extract_gift_info` (lines 521-537). -/

/-- Python whitespace stripped by `str.strip()`. -/
def pyWs (c : Nat) : Bool := c = 32 || c = 9 || c = 10 || c = 13 || c = 11 || c = 12

/-- `str.strip()`. -/
def pyStrip (s : List Nat) : List Nat :=
  ((s.dropWhile pyWs).reverse.dropWhile pyWs).reverse

/-- Split off the text before the first occurrence of `sep` (nonempty): the
pair of the prefix and the remainder after the separator. -/
def findSepSplit (sep : List Nat) : List Nat → Option (List Nat × List Nat)
  | [] => none
  | c :: rest =>
    if sep.isPrefixOf (c :: rest) then some ([], (c :: rest).drop sep.length)
    else (findSepSplit sep rest).map fun pr => (c :: pr.1, pr.2)

/-- Fueled Python `str.split(sep)` for a nonempty separator. -/
def pySplitF (sep : List Nat) : Nat → List Nat → List (List Nat)
  | 0, s => [s]
  | fuel + 1, s =>
    match findSepSplit sep s with
    | none => [s]
    | some (pre, post) => pre :: pySplitF sep fuel post

/-- Python `str.split(sep)`. -/
def pySplit (sep s : List Nat) : List (List Nat) := pySplitF sep (s.length + 1) s

/-- `re.search(r'(\d+)', s)` restricted to ASCII digits: value of the first
maximal digit run, if any. -/
def firstDigitRun (s : List Nat) : Option Nat :=
  let ds := (s.dropWhile fun c => !(isDigitB c)).takeWhile isDigitB
  if ds.isEmpty then none else some (digitsToNat ds)

/-- `_extract_gift_info` (lines 521-537): the count is the first digit run
after `送出了` and the name is the remaining text with all digits removed,
with defaults `未知礼物`/1. -/
def extract_gift_info (content : List Nat) : List Nat × Int :=
  if isSubL (pyStr "送出了") content then
    let parts := pySplit (pyStr "送出了") content
    if 1 < parts.length then
      let giftInfo := pyStrip (parts.getD 1 [])
      let cnt : Int := match firstDigitRun giftInfo with
        | some n => (n : Int)
        | none => 1
      let name := pyStrip (giftInfo.filter fun c => !(isDigitB c))
      (name, cnt)
    else (pyStr "未知礼物", 1)
  else (pyStr "未知礼物", 1)

/-! ## Signer: TaobaoLiveWebFetcher.make_sign (src/liveMan.py lines 236-240)

`hashlib.md5` is modelled by an executable MD5 (RFC 1321) over byte lists,
with 32-bit words as `Nat` reduced by `% 2^32`.  `make_sign` works on the
UTF-8 byte strings of its four inputs (the f-string concatenation of
line 239 commutes with UTF-8 encoding, so the embedding concatenates byte
strings directly). -/

/-- Truncate to a 32-bit word. -/
def w32 (n : Nat) : Nat := n % 4294967296

/-- Rotate a 32-bit word left by `s` bits. -/
def rotl (x s : Nat) : Nat := w32 (x * 2 ^ s) + x / 2 ^ (32 - s)

/-- MD5 round function F. -/
def mdF (b c d : Nat) : Nat := Nat.lor (Nat.land b c) (Nat.land (4294967295 - b) d)

/-- MD5 round function G. -/
def mdG (b c d : Nat) : Nat := Nat.lor (Nat.land d b) (Nat.land (4294967295 - d) c)

/-- MD5 round function H. -/
def mdH (b c d : Nat) : Nat := Nat.xor b (Nat.xor c d)

/-- MD5 round function I. -/
def mdI (b c d : Nat) : Nat := Nat.xor c (Nat.lor b (4294967295 - d))

/-- MD5 sine-derived constant table. -/
def md5K : List Nat :=
  [0xd76aa478, 0xe8c7b756, 0x242070db, 0xc1bdceee,
   0xf57c0faf, 0x4787c62a, 0xa8304613, 0xfd469501,
   0x698098d8, 0x8b44f7af, 0xffff5bb1, 0x895cd7be,
   0x6b901122, 0xfd987193, 0xa679438e, 0x49b40821,
   0xf61e2562, 0xc040b340, 0x265e5a51, 0xe9b6c7aa,
   0xd62f105d, 0x02441453, 0xd8a1e681, 0xe7d3fbc8,
   0x21e1cde6, 0xc33707d6, 0xf4d50d87, 0x455a14ed,
   0xa9e3e905, 0xfcefa3f8, 0x676f02d9, 0x8d2a4c8a,
   0xfffa3942, 0x8771f681, 0x6d9d6122, 0xfde5380c,
   0xa4beea44, 0x4bdecfa9, 0xf6bb4b60, 0xbebfbc70,
   0x289b7ec6, 0xeaa127fa, 0xd4ef3085, 0x04881d05,
   0xd9d4d039, 0xe6db99e5, 0x1fa27cf8, 0xc4ac5665,
   0xf4292244, 0x432aff97, 0xab9423a7, 0xfc93a039,
   0x655b59c3, 0x8f0ccc92, 0xffeff47d, 0x85845dd1,
   0x6fa87e4f, 0xfe2ce6e0, 0xa3014314, 0x4e0811a1,
   0xf7537e82, 0xbd3af235, 0x2ad7d2bb, 0xeb86d391]

/-- MD5 per-round shift table. -/
def md5S : List Nat :=
  [7, 12, 17, 22, 7, 12, 17, 22, 7, 12, 17, 22, 7, 12, 17, 22,
   5, 9, 14, 20, 5, 9, 14, 20, 5, 9, 14, 20, 5, 9, 14, 20,
   4, 11, 16, 23, 4, 11, 16, 23, 4, 11, 16, 23, 4, 11, 16, 23,
   6, 10, 15, 21, 6, 10, 15, 21, 6, 10, 15, 21, 6, 10, 15, 21]

/-- Little-endian 32-bit word `i` of a 64-byte block. -/
def le32At (blk : List Nat) (i : Nat) : Nat :=
  blk.getD (4 * i) 0 + 256 * blk.getD (4 * i + 1) 0 +
    65536 * blk.getD (4 * i + 2) 0 + 16777216 * blk.getD (4 * i + 3) 0

/-- One of the 64 MD5 rounds on state `(a, b, c, d)`. -/
def md5round (blk : List Nat) (st : Nat × Nat × Nat × Nat) (i : Nat) :
    Nat × Nat × Nat × Nat :=
  let (a, b, c, d) := st
  let fg :=
    if i < 16 then (mdF b c d, i)
    else if i < 32 then (mdG b c d, (5 * i + 1) % 16)
    else if i < 48 then (mdH b c d, (3 * i + 5) % 16)
    else (mdI b c d, (7 * i) % 16)
  let tmp := w32 (a + fg.1 + md5K.getD i 0 + le32At blk fg.2)
  (d, w32 (b + rotl tmp (md5S.getD i 0)), b, c)

/-- Process one 64-byte block. -/
def md5block (st : Nat × Nat × Nat × Nat) (blk : List Nat) :
    Nat × Nat × Nat × Nat :=
  let r := (List.range 64).foldl (md5round blk) st
  (w32 (st.1 + r.1), w32 (st.2.1 + r.2.1), w32 (st.2.2.1 + r.2.2.1),
   w32 (st.2.2.2 + r.2.2.2))

/-- Little-endian bytes of a 64-bit length field. -/
def le64 (n : Nat) : List Nat := (List.range 8).map fun i => n / 2 ^ (8 * i) % 256

/-- MD5 padding: `0x80`, zeros to 56 mod 64, 64-bit little-endian bit
length. -/
def md5pad (msg : List Nat) : List Nat :=
  msg ++ [128] ++ List.replicate ((119 - msg.length % 64) % 64) 0 ++
    le64 (8 * msg.length % 2 ^ 64)

/-- Split into 64-byte blocks. -/
def chunks64F : Nat → List Nat → List (List Nat)
  | 0, _ => []
  | _, [] => []
  | fuel + 1, l => l.take 64 :: chunks64F fuel (l.drop 64)

/-- Hex digit character code. -/
def hexDigit (n : Nat) : Nat := if n < 10 then 48 + n else 87 + n

/-- Two lowercase hex digits of a byte. -/
def byteHex (b : Nat) : List Nat := [hexDigit (b / 16), hexDigit (b % 16)]

/-- Lowercase hex of a 32-bit word, little-endian byte order. -/
def hexLe32 (n : Nat) : List Nat :=
  ((List.range 4).map fun i => n / 2 ^ (8 * i) % 256).foldr
    (fun b acc => byteHex b ++ acc) []

/-- `hashlib.md5(bytes).hexdigest()` as ASCII code points. -/
def md5hex (msg : List Nat) : List Nat :=
  let padded := md5pad msg
  let r := (chunks64F padded.length padded).foldl md5block
    (0x67452301, 0xefcdab89, 0x98badcfe, 0x10325476)
  hexLe32 r.1 ++ hexLe32 r.2.1 ++ hexLe32 r.2.2.1 ++ hexLe32 r.2.2.2

/-- Python `s.split(sep, 1)[0]`: the prefix of `s` before the first
occurrence of the one-character separator, the whole string if absent. -/
def splitOnceHead (sep : Nat) : List Nat → List Nat
  | [] => []
  | c :: r => if c = sep then [] else c :: splitOnceHead sep r

/-- `TaobaoLiveWebFetcher.make_sign` (lines 236-240) on the UTF-8 bytes of
its four string arguments: `token = m_h5_tk.split('_', 1)[0]`, then the MD5
hex digest of `token & t & app_key & data_str` (38 is `&`, 95 is `_`). -/
def make_sign (mH5Tk t appKey dataStr : List Nat) : List Nat :=
  let token := splitOnceHead 95 mH5Tk
  md5hex (token ++ [38] ++ t ++ [38] ++ appKey ++ [38] ++ dataStr)

/-! ## ConnectionSupervisor: reconnect backoff
(src/liveMan.py lines 114-199) -/

/-- The delay floor: `self._reconnect_delay = 1` in `__init__` (line 118),
restored in `start` (line 128) and on every attempt that reaches the running
phase (`_connect_and_listen`, line 193). -/
def initialReconnectDelay : Nat := 1

/-- `_handle_reconnect` (lines 173-178): wait for the current delay, then
double it, capped at `_max_reconnect_delay = 60` (line 119).  Returns the
performed wait and the next delay. -/
def reconnectStep (d : Nat) : Nat × Nat := (d, min (d * 2) 60)

/-- Reconnect delay after `n` consecutive failed attempts, starting from a
fresh (or freshly successful) connection. -/
def delayAfterFails : Nat → Nat
  | 0 => initialReconnectDelay
  | n + 1 => (reconnectStep (delayAfterFails n)).2

/-- The wait performed between failed attempt `k` and attempt `k + 1`
(the `k`-th call of `_handle_reconnect` waits for the delay accumulated over
the previous `k - 1` calls). -/
def waitBeforeAttempt (k : Nat) : Nat := (reconnectStep (delayAfterFails (k - 1))).1

/-! ## HeartbeatLoop staleness and the supervisor reaction
(src/liveMan.py lines 158-199 and 253-303)

A discrete interleaved model of the two threads.  One `tick` runs one
iteration of the heartbeat loop body and one iteration of the
comment-listening loop body under the connection thread. -/

/-- Whether one iteration of the `_sendHeartbeat` loop keeps running
(lines 253-257): the loop runs while the stop event is unset and breaks when
`now - self._last_message_time > self._no_message_timeout` (30, line 123). -/
def hbLoopContinues (stop : Bool) (now last : Nat) : Bool :=
  !stop && !(decide (30 < now - last))

/-- Supervisor-visible phase of the connection thread: `running` while
`_connect_and_listen` sits in `_listen_comments`, `reconnectWait` once
`_run_connection_loop` has entered `_handle_reconnect`, `stopped` after the
loop breaks on the stop event. -/
inductive SupMode where
  | running : SupMode
  | reconnectWait : SupMode
  | stopped : SupMode
deriving DecidableEq

/-- One scheduling step of the connection thread (lines 158-171, 348-371):
in `running`, a set stop event ends the loop; a successful comment fetch
keeps listening; a failed fetch re-raises out of `_listen_comments`
(line 371) into `_handle_reconnect`.  The heartbeat thread's state is not
consulted anywhere in this code path. -/
def connStep (stop fetchOk : Bool) (m : SupMode) : SupMode :=
  match m with
  | .running => if stop then .stopped else if fetchOk then .running else .reconnectWait
  | m => m

/-- Combined state of the two threads sharing `self`. -/
structure SysState where
  hbAlive : Bool
  mode : SupMode
  lastMsg : Nat

/-- One scheduling tick: the heartbeat thread checks staleness
(lines 253-257) and the connection thread takes one `connStep`;
`_last_message_time` advances only when a non-empty payload arrived
(lines 285-289, 357-358). -/
def tick (now : Nat) (stop fetchOk gotPayload : Bool) (s : SysState) : SysState :=
  { hbAlive := s.hbAlive && hbLoopContinues stop now s.lastMsg
    mode := connStep stop fetchOk s.mode
    lastMsg := if gotPayload then now else s.lastMsg }

/-! ## Shared-state writes of the two loop bodies
(src/liveMan.py lines 253-303 and 348-371) -/

/-- The mutable session fields of `TaobaoLiveWebFetcher` that the loop
bodies can touch (lines 109-123). -/
structure FetcherSt where
  paginationCtx : Option Json
  lastMessageTime : Nat
  reconnectDelay : Nat
  topic : Option (List Nat)

/-- Python `for`-iteration source: only lists are iterated in the modelled
paths. -/
def asList : Json → Except Unit (List Json)
  | .arr xs => .ok xs
  | _ => .error ()

/-- `for c in comments: self._parseChatMsg(c)` (lines 360-361): an exception
in any `_parseChatMsg` call aborts the whole iteration. -/
def mapChatE : List Json → Except Unit (List (Option Event))
  | [] => .ok []
  | c :: rest => do
    let e ← parseChatMsgE c
    let es ← mapChatE rest
    .ok (e :: es)

/-- One iteration of the `_listen_comments` loop body (lines 352-363), given
the decoded fetch response `res`: store `data.get('paginationContext')` into
`self._pagination_ctx`, refresh `self._last_message_time` when the comment
list is truthy, then route every comment through `_parseChatMsg`.  `.get` on
a non-dict raises. -/
def listenCommentsIterE (now : Nat) (res : Json) (s : FetcherSt) :
    Except Unit (FetcherSt × List (Option Event)) :=
  match res with
  | .obj _ =>
    let dataJ := pyGet res (pyStr "data") (Json.obj [])
    match dataJ with
    | .obj _ =>
      let s1 := { s with paginationCtx := dictLookup dataJ (pyStr "paginationContext") }
      let commentsJ := pyGet dataJ (pyStr "comments") (Json.arr [])
      let s2 := if pyTruthy commentsJ then { s1 with lastMessageTime := now } else s1
      match commentsJ with
      | .arr cs =>
        match mapChatE cs with
        | .ok evs => .ok (s2, evs)
        | .error e => .error e
      | _ => .error ()
    | _ => .error ()
  | _ => .error ()

/-- `_parse_protobuf_message` (lines 305-320): decode the base64 payload of
one timestamp entry and route every embedded object through
`_process_message`; any failure is swallowed (`except`/`pass`), producing no
events.  As for the frame decoder, the base64 text is modelled by its
decoded byte string. -/
def parse_protobuf_message (td : Json) : List (Option Event) :=
  match td with
  | .obj _ =>
    let b64 := pyGet td (pyStr "data") (Json.str [])
    if pyTruthy b64 then
      match b64 with
      | .str bytes => (parse_base64_message bytes).map fun o => process_message o
      | _ => []
    else []
  | _ => []

/-- One iteration of the `_sendHeartbeat` loop body after the staleness
check (lines 259-291), given the decoded response envelope `result` and the
loop-local `offset` variable (line 246): when the `timestampList` is truthy,
advance `offset` from its last entry, route every entry, and set
`self._last_message_time = time.time()`.  Returns the new state, the new
loop-local offset, and the routed events. -/
def sendHeartbeatIterE (now : Nat) (result : Json) (offset : Json) (s : FetcherSt) :
    Except Unit (FetcherSt × Json × List (List (Option Event))) :=
  match result with
  | .obj _ =>
    let dataJ := pyGet result (pyStr "data") (Json.obj [])
    match dataJ with
    | .obj _ =>
      let tsJ := pyGet dataJ (pyStr "timestampList") (Json.arr [])
      if pyTruthy tsJ then
        match tsJ with
        | .arr ts =>
          match ts.getLast? with
          | some lt =>
            match lt with
            | .obj _ =>
              .ok ({ s with lastMessageTime := now },
                pyGet lt (pyStr "offset") offset,
                ts.map parse_protobuf_message)
            | _ => .error ()
          | none => .error ()
        | _ => .error ()
      else .ok (s, offset, [])
    | _ => .error ()
  | _ => .error ()

/-! ## Claim-level definitions -/

/-- A filler segment: none of its bytes is the opening brace `{` (0x7B). -/
def NoOpenBrace (l : List Nat) : Prop := ∀ b ∈ l, (!(b == 123)) = true

/-- Build the decoded byte buffer from chunks `(filler, span, value)` and a
trailing segment. -/
def interleave : List (List Nat × List Nat × Json) → List Nat → List Nat
  | [], tail => tail
  | (f, s, _) :: rest, tail => f ++ s ++ interleave rest tail

/-- A valid embedded JSON object encoding paired with its parse: the span
starts with `{`, the frame decoder's lexer closes it exactly at its end, and
`json.loads` of its (UTF-8 decoded) text yields the value. -/
def GoodChunk (c : List Nat × List Nat × Json) : Prop :=
  NoOpenBrace c.1 ∧ c.2.1.head? = some 123 ∧
    findSpanLen c.2.1 = some c.2.1.length ∧
    jsonLoads (utf8Ignore c.2.1) = some c.2.2

/-- Boolean form of "the like-branch condition of `_process_message`
evaluated to `True`" (an exception counts as not-True, since it aborts the
handler chain). -/
def digTrue (j : Json) : Bool :=
  match digCheckE j with
  | .ok true => true
  | _ => false

/-- The comment-feed record of the gift re-classification claim:
`{"publisherNick": "张三", "publisherId": "1", "content": "张三送出了棒棒糖x5"}`. -/
def giftCommentRecord : Json :=
  Json.obj [(pyStr "publisherNick", Json.str (pyStr "张三")),
    (pyStr "publisherId", Json.str (pyStr "1")),
    (pyStr "content", Json.str (pyStr "张三送出了棒棒糖x5"))]

/-- A concrete comment-fetch response with one comment and a pagination
cursor. -/
def sampleCommentRes : Json :=
  Json.obj [(pyStr "data", Json.obj
    [(pyStr "comments", Json.arr [Json.obj
       [(pyStr "publisherNick", Json.str (pyStr "A")),
        (pyStr "publisherId", Json.str (pyStr "1")),
        (pyStr "content", Json.str (pyStr "hello"))]]),
     (pyStr "paginationContext", Json.str (pyStr "p"))])]

/-- A fresh session state with `_last_message_time = 0`. -/
def sampleFetcherSt : FetcherSt := ⟨none, 0, 1, none⟩

example : parse_base64_message [] = [] := rfl
example : parse_base64_message [123, 125] = [Json.obj []] := rfl
example : parse_base64_message [0, 65, 123, 34, 97, 34, 58, 49, 125, 66] =
    [Json.obj [([97], Json.num 1)]] := rfl
example : parse_base64_message [123, 255, 125] = [Json.obj []] := rfl
example : utf8Valid [123, 255, 125] = false := rfl
example : utf8Valid [123, 34, 97, 34, 58, 49, 125] = true := rfl
example : jsonLoads (pyStr "[1, [2, 3], \x7b\x7d]") =
    some (Json.arr [Json.num 1, Json.arr [Json.num 2, Json.num 3], Json.obj []]) := rfl
example : jsonLoads (pyStr "nope") = none := rfl
example : md5hex [] = pyStr "d41d8cd98f00b204e9800998ecf8427e" := by decide
example : md5hex (pyStr "abc") = pyStr "900150983cd24fb0d6963f7d28e17f72" := by decide
example : process_message (Json.obj [(pyStr "foo", Json.num 1)]) = none := rfl
example : process_message (Json.obj [(pyStr "subType", Json.num 10002),
    (pyStr "giftName", Json.str (pyStr "rose")), (pyStr "num", Json.num 3)]) =
    some (.gift (Json.str (pyStr "匿名")) (Json.str (pyStr "rose")) (Json.num 3)) := rfl
example : extract_gift_info (pyStr "张三送出了棒棒糖x5") = (pyStr "棒棒糖x", 5) := rfl
example : parseChatMsgE (Json.obj [(pyStr "publisherNick", Json.str (pyStr "张三")),
    (pyStr "publisherId", Json.str (pyStr "1")),
    (pyStr "content", Json.str (pyStr "张三送出了棒棒糖x5"))]) = .ok none := rfl
example : parseChatMsgE (Json.obj [(pyStr "publisherNick", Json.str (pyStr "A")),
    (pyStr "publisherId", Json.str (pyStr "1")),
    (pyStr "content", Json.str (pyStr "hello"))]) =
    .ok (some (.chat (Json.str (pyStr "1")) (Json.str (pyStr "A"))
      (Json.str (pyStr "hello")))) := rfl

/-! ## Helper lemmas about the frame decoder -/

theorem scanGo_append {st : ScanSt} {k m : Nat} {l r : List Nat}
    (h : scanGo st k l = some m) : scanGo st k (l ++ r) = some m := by
  induction l generalizing st k with
  | nil => simp [scanGo] at h
  | cons b rest ih =>
    by_cases hc : (scanStep st b).depth = 0 ∧ 1 ≤ k
    · simpa [scanGo, hc] using h
    · simp only [scanGo, hc, if_false, List.cons_append] at h ⊢
      exact ih h

theorem scanGo_bounds {st : ScanSt} {k m : Nat} {l : List Nat}
    (h : scanGo st k l = some m) : 2 ≤ m ∧ m ≤ k + l.length := by
  induction l generalizing st k with
  | nil => simp [scanGo] at h
  | cons b rest ih =>
    by_cases hc : (scanStep st b).depth = 0 ∧ 1 ≤ k
    · simp only [scanGo, hc, if_true] at h
      obtain rfl : k + 1 = m := Option.some_injective _ h
      exact ⟨by omega, by simp only [List.length_cons]; omega⟩
    · simp only [scanGo, hc, if_false] at h
      have := ih h
      constructor
      · exact this.1
      · have := this.2
        simp only [List.length_cons]
        omega

theorem findSpanLen_bounds {l : List Nat} {k : Nat}
    (h : findSpanLen l = some k) : 2 ≤ k ∧ k ≤ l.length := by
  have := scanGo_bounds h
  omega

theorem parseLoopF_nil (fuel : Nat) : parseLoopF fuel [] = [] := by
  cases fuel <;> rfl

theorem parseLoopF_mono (f₁ : Nat) : ∀ f₂ l, l.length ≤ f₁ → l.length ≤ f₂ →
    parseLoopF f₁ l = parseLoopF f₂ l := by
  induction f₁ with
  | zero =>
    intro f₂ l h1 _
    obtain rfl : l = [] := List.eq_nil_of_length_eq_zero (Nat.le_zero.mp h1)
    rw [parseLoopF_nil, parseLoopF_nil]
  | succ f ih =>
    intro f₂ l h1 h2
    cases f₂ with
    | zero =>
      obtain rfl : l = [] := List.eq_nil_of_length_eq_zero (Nat.le_zero.mp h2)
      rw [parseLoopF_nil, parseLoopF_nil]
    | succ g =>
      simp only [parseLoopF]
      rcases hfs : findSpanLen (l.dropWhile fun b => !(b == 123)) with _ | k
      · rfl
      · have hb := findSpanLen_bounds hfs
        have hsl : (l.dropWhile fun b => !(b == 123)).length ≤ l.length :=
          (List.dropWhile_sublist _).length_le
        have hdl : ((l.dropWhile fun b => !(b == 123)).drop k).length ≤ f := by
          simp only [List.length_drop]
          omega
        have hdg : ((l.dropWhile fun b => !(b == 123)).drop k).length ≤ g := by
          simp only [List.length_drop]
          omega
        dsimp only
        rw [ih g _ hdl hdg]

theorem dropWhile_append_all {p : Nat → Bool} {f l : List Nat}
    (h : ∀ b ∈ f, p b = true) : (f ++ l).dropWhile p = l.dropWhile p := by
  induction f with
  | nil => rfl
  | cons c fs ih =>
    have hc : p c = true := h c (List.mem_cons_self c fs)
    simp only [List.cons_append, List.dropWhile_cons, hc, if_true]
    exact ih fun b hb => h b (List.mem_cons_of_mem c hb)

theorem parseLoopF_filler {f l : List Nat} (h : NoOpenBrace f) (fuel : Nat) :
    parseLoopF fuel (f ++ l) = parseLoopF fuel l := by
  cases fuel with
  | zero => rfl
  | succ g =>
    simp only [parseLoopF]
    rw [dropWhile_append_all h]

theorem parse_filler {f l : List Nat} (h : NoOpenBrace f) :
    parse_base64_message (f ++ l) = parse_base64_message l := by
  unfold parse_base64_message
  rw [parseLoopF_filler h]
  exact parseLoopF_mono _ _ l (by simp) (le_refl _)

theorem parse_all_filler {l : List Nat} (h : NoOpenBrace l) :
    parse_base64_message l = [] := by
  have h2 := @parse_filler l [] h
  rw [List.append_nil] at h2
  exact h2.trans (parseLoopF_nil 0)

theorem parse_step {S rest : List Nat} (hhead : S.head? = some 123)
    (hspan : findSpanLen S = some S.length) :
    parse_base64_message (S ++ rest) =
      (match jsonLoads (utf8Ignore S) with
       | some v => [v]
       | none => []) ++ parse_base64_message rest := by
  obtain ⟨S', rfl⟩ : ∃ S', S = 123 :: S' := by
    cases S with
    | nil => simp at hhead
    | cons b S' =>
      simp only [List.head?] at hhead
      exact ⟨S', by rw [Option.some_injective _ hhead]⟩
  have hlen : ((123 :: S') ++ rest).length = (S'.length + rest.length) + 1 := by
    simp only [List.length_append, List.length_cons]
    omega
  unfold parse_base64_message
  rw [hlen]
  simp only [parseLoopF]
  have hd : (((123 : Nat) :: S') ++ rest).dropWhile (fun b => !(b == 123)) =
      (123 :: S') ++ rest := by
    simp [List.dropWhile_cons]
  rw [hd]
  have hf : findSpanLen ((123 :: S') ++ rest) = some (123 :: S').length :=
    scanGo_append hspan
  rw [hf]
  dsimp only
  rw [List.take_left, List.drop_left]
  congr 1
  exact parseLoopF_mono _ _ rest (by simp) (le_refl _)

theorem parse_interleave {chunks : List (List Nat × List Nat × Json)}
    (h : ∀ c ∈ chunks, GoodChunk c) (tail : List Nat) :
    parse_base64_message (interleave chunks tail) =
      chunks.map (fun c => c.2.2) ++ parse_base64_message tail := by
  induction chunks with
  | nil => simp [interleave]
  | cons c rest ih =>
    obtain ⟨f, S, v⟩ := c
    obtain ⟨hf, hhead, hspan, hloads⟩ := h _ (List.mem_cons_self _ rest)
    dsimp only at hf hhead hspan hloads
    simp only [interleave]
    rw [List.append_assoc]
    rw [parse_filler hf]
    rw [parse_step hhead hspan]
    rw [hloads]
    rw [ih fun c hc => h c (List.mem_cons_of_mem _ hc)]
    simp

/-! ## Claim theorems -/

/-- Claim C1: for every decoded byte buffer that is a concatenation of valid
JSON object encodings interleaved with arbitrary filler bytes none of which
is `{`, the frame decoder returns exactly those objects, in the order their
opening braces appear in the byte stream. -/
theorem frame_decoder_concat (chunks : List (List Nat × List Nat × Json))
    (tail : List Nat) (hc : ∀ c ∈ chunks, GoodChunk c) (ht : NoOpenBrace tail) :
    parse_base64_message (interleave chunks tail) = chunks.map fun c => c.2.2 := by
  rw [parse_interleave hc tail, parse_all_filler ht, List.append_nil]

/-- Witness for C1: one filler byte, the span `{"a":1}`, a trailing `}`
filler byte. -/
theorem frame_decoder_concat_witness :
    parse_base64_message
        (interleave [([0], [123, 34, 97, 34, 58, 49, 125], Json.obj [([97], Json.num 1)])]
          [125]) =
      [Json.obj [([97], Json.num 1)]] :=
  frame_decoder_concat _ _
    (by
      intro c hcm
      rw [List.mem_singleton] at hcm
      subst hcm
      exact ⟨by unfold NoOpenBrace; decide, rfl, rfl, rfl⟩)
    (by unfold NoOpenBrace; decide)

/-- The decoder returns nothing when the head candidate span never closes
(`json_end == -1`, lines 77-78). -/
theorem parse_no_close {F : List Nat} (hF : F.head? = some 123)
    (hnone : findSpanLen F = none) : parse_base64_message F = [] := by
  obtain ⟨F', rfl⟩ : ∃ F', F = 123 :: F' := by
    cases F with
    | nil => simp at hF
    | cons b F' =>
      simp only [List.head?] at hF
      exact ⟨F', by rw [Option.some_injective _ hF]⟩
  unfold parse_base64_message
  simp only [List.length_cons, parseLoopF]
  have hd : ((123 : Nat) :: F').dropWhile (fun b => !(b == 123)) = 123 :: F' := by
    simp [List.dropWhile_cons]
  rw [hd, hnone]

/-- Claim C7: a buffer ending in an unterminated fragment (an opening `{`
whose brace depth never returns to zero before the end of the buffer) yields
exactly the balanced objects preceding the fragment; the fragment is
discarded and no error path is taken (the embedding of the decoder is a
total function whose `json_end == -1` branch is a plain `break`). -/
theorem frame_decoder_fragment (chunks : List (List Nat × List Nat × Json))
    (g F : List Nat) (hc : ∀ c ∈ chunks, GoodChunk c) (hg : NoOpenBrace g)
    (hF : F.head? = some 123) (hnone : findSpanLen F = none) :
    parse_base64_message (interleave chunks (g ++ F)) = chunks.map fun c => c.2.2 := by
  rw [parse_interleave hc _, parse_filler hg, parse_no_close hF hnone,
    List.append_nil]

/-- Witness for C7: the span `{"b":2}` followed by the unterminated fragment
`{"`. -/
theorem frame_decoder_fragment_witness :
    parse_base64_message
        (interleave [([], [123, 34, 98, 34, 58, 50, 125], Json.obj [([98], Json.num 2)])]
          ([66] ++ [123, 34])) =
      [Json.obj [([98], Json.num 2)]] :=
  frame_decoder_fragment _ _ _
    (by
      intro c hcm
      rw [List.mem_singleton] at hcm
      subst hcm
      exact ⟨by unfold NoOpenBrace; decide, rfl, rfl, rfl⟩)
    (by unfold NoOpenBrace; decide) rfl rfl

/-- Counterexample to claim C8: the candidate span `7B FF 7D` is not
decodable as UTF-8, yet the decoder does NOT discard it: `errors='ignore'`
strips the invalid byte and `json.loads` of the remaining text `{}` succeeds,
so the object is kept. -/
theorem frame_decoder_utf8_counterexample :
    utf8Valid [123, 255, 125] = false ∧
      parse_base64_message [123, 255, 125] = [Json.obj []] := ⟨rfl, rfl⟩

/-- Claim C8 (amended): for every brace-balanced candidate span, undecodable
bytes are stripped by `errors='ignore'`; the candidate is kept exactly when
`json.loads` succeeds on the stripped text and discarded otherwise, and in
both cases decoding continues with the bytes after the span. -/
theorem frame_decoder_span_skip (S rest : List Nat) (hhead : S.head? = some 123)
    (hspan : findSpanLen S = some S.length) :
    parse_base64_message (S ++ rest) =
      (match jsonLoads (utf8Ignore S) with
       | some v => [v]
       | none => []) ++ parse_base64_message rest :=
  parse_step hhead hspan

/-- Witness for C8 (amended), at the undecodable span `7B FF 7D` followed by
a second object. -/
theorem frame_decoder_span_skip_witness :
    parse_base64_message ([123, 255, 125] ++ [123, 125]) =
      (match jsonLoads (utf8Ignore [123, 255, 125]) with
       | some v => [v]
       | none => []) ++ parse_base64_message [123, 125] :=
  frame_decoder_span_skip _ _ rfl rfl

/-- Claim C10: the frame decoder makes strict progress and terminates: every
consumed candidate span covers at least two bytes (`json_end > json_start`)
and lies inside the buffer, and consequently the number of returned objects
is bounded by half the buffer length, so the result is always a finite
sequence. -/
theorem frame_decoder_progress :
    (∀ l, 2 * (parse_base64_message l).length ≤ l.length) ∧
      (∀ l k, findSpanLen l = some k → 2 ≤ k ∧ k ≤ l.length) := by
  constructor
  · have main : ∀ fuel l, 2 * (parseLoopF fuel l).length ≤ l.length := by
      intro fuel
      induction fuel with
      | zero => intro l; simp [parseLoopF]
      | succ f ih =>
        intro l
        simp only [parseLoopF]
        rcases hfs : findSpanLen (l.dropWhile fun b => !(b == 123)) with _ | k
        · simp
        · dsimp only
          have hb := findSpanLen_bounds hfs
          have hsl : (l.dropWhile fun b => !(b == 123)).length ≤ l.length :=
            (List.dropWhile_sublist _).length_le
          have hrec := ih ((l.dropWhile fun b => !(b == 123)).drop k)
          rw [List.length_append]
          rcases jsonLoads (utf8Ignore ((l.dropWhile fun b => !(b == 123)).take k)) with _ | v
          · simp only [List.length_nil, List.length_drop] at *
            omega
          · simp only [List.length_cons, List.length_nil, List.length_drop] at *
            omega
    exact fun l => main l.length l
  · exact fun l k h => findSpanLen_bounds h

/-- Witness for C10 at the two-byte buffer `{}`. -/
theorem frame_decoder_progress_witness :
    2 * (parse_base64_message [123, 125]).length ≤ 2 ∧ 2 ≤ 2 ∧ 2 ≤ 2 :=
  ⟨frame_decoder_progress.1 [123, 125], frame_decoder_progress.2 [123, 125] 2 rfl⟩

/-- Counterexample to claim C2: the decoded object `{"foo": 1}` matches none
of the recognized key shapes, and `_process_message` produces NO event for
it — the object is dropped silently; the code has no Unknown fallback at
all. -/
theorem router_unknown_counterexample :
    process_message (Json.obj [(pyStr "foo", Json.num 1)]) = none := rfl

/-- Claim C2 (amended): classification never raises, but it is not total
with an Unknown fallback — for every decoded object matching none of the
recognized key shapes (no viewCountFormat/pageViewCount key, not nick
together with flowSourceText or subType, no truthy value.dig check, and no
subType equal to 10001 or 10002) `_process_message` silently produces no
event. -/
theorem router_no_match_dropped (j : Json)
    (h1 : hasKey j (pyStr "viewCountFormat") = false)
    (h2 : hasKey j (pyStr "pageViewCount") = false)
    (h3 : (hasKey j (pyStr "nick") &&
      (hasKey j (pyStr "flowSourceText") || hasKey j (pyStr "subType"))) = false)
    (h4 : digTrue j = false)
    (h5 : pyEqInt (pyGet j (pyStr "subType") (Json.num 0)) 10001 = false)
    (h6 : pyEqInt (pyGet j (pyStr "subType") (Json.num 0)) 10002 = false) :
    process_message j = none := by
  unfold process_message processMessageE
  by_cases hd : j.isDict
  · rcases hdig : digCheckE j with e | b
    · simp [hd, h1, h2, h3, hdig] <;> rfl
    · have hb : b = false := by
        cases b with
        | false => rfl
        | true =>
          have hc : digTrue j = true := by
            unfold digTrue
            rw [hdig]
          rw [h4] at hc
          exact absurd hc Bool.false_ne_true
      subst hb
      cases hst : hasKey j (pyStr "subType") with
      | true =>
        have hn : hasKey j (pyStr "nick") = false := by
          cases hnk : hasKey j (pyStr "nick") with
          | false => rfl
          | true =>
            rw [hnk, hst] at h3
            simp at h3
        simp [hd, h1, h2, hn, hdig, hst, h5, h6] <;> rfl
      | false =>
        rw [hst] at h3
        simp only [Bool.or_false] at h3
        simp [hd, h1, h2, h3, hdig, hst] <;> rfl
  · simp [hd]

/-- Witness for C2 (amended) at the object `{"bar": null}`. -/
theorem router_no_match_dropped_witness :
    process_message (Json.obj [(pyStr "bar", Json.null)]) = none :=
  router_no_match_dropped _ rfl rfl rfl rfl rfl rfl

/-- Claim C3 evaluated on the failing input
`{"publisherNick":"张三","publisherId":"1","content":"张三送出了棒棒糖x5"}`:
the chat handler recognizes the gift keyword and then emits NOTHING (no Chat
event and no Gift event — line 408 has no else branch and never calls the
gift path), while the unreachable helper `_extract_gift_info` would extract
exactly the claimed count 5 and digit-stripped name. -/
theorem gift_comment_dropped :
    parseChatMsgE giftCommentRecord = .ok none ∧
      extract_gift_info (pyStr "张三送出了棒棒糖x5") = (pyStr "棒棒糖x", 5) :=
  ⟨rfl, rfl⟩

/-- Closed form of the reconnect delay: after `n` consecutive failures the
delay is `min (2^n) 60`. -/
theorem delayAfterFails_eq (n : Nat) : delayAfterFails n = min (2 ^ n) 60 := by
  induction n with
  | zero => rfl
  | succ n ih =>
    simp only [delayAfterFails, reconnectStep, ih]
    have hx : 2 ^ (n + 1) = 2 ^ n * 2 := pow_succ 2 n
    omega

/-- Counterexample to claim C4: after the first failed attempt (k = 1) the
code waits `_reconnect_delay = 1` second and only then doubles the delay, so
the wait before attempt 2 is 1 second, not `min (2^1, 60) = 2`. -/
theorem backoff_first_wait_counterexample :
    waitBeforeAttempt 1 = 1 ∧ min (2 ^ 1) 60 = 2 ∧
      waitBeforeAttempt 1 ≠ min (2 ^ 1) 60 := ⟨rfl, rfl, by decide⟩

/-- Claim C4 (amended): the backoff starts at 1 second and is capped at 60
seconds, the wait before attempt k+1 after k consecutive failures (counted
from a fresh or freshly-reset delay) is `min (2^(k-1), 60)` seconds, and
reaching the running phase resets the delay to the 1-second floor. -/
theorem backoff_wait_formula (k : Nat) (hk : 1 ≤ k) :
    waitBeforeAttempt k = min (2 ^ (k - 1)) 60 ∧ initialReconnectDelay = 1 :=
  ⟨delayAfterFails_eq (k - 1), rfl⟩

/-- Witness for C4 (amended) at k = 7 (cap region: the wait is 60, not
2^6 = 64). -/
theorem backoff_wait_formula_witness :
    waitBeforeAttempt 7 = min (2 ^ 6) 60 ∧ initialReconnectDelay = 1 :=
  backoff_wait_formula 7 (by decide)

/-- Counterexample to claim C5: with `_last_message_time = 0`, at time 31
(gap 31 > 30) and succeeding comment fetches, one scheduling tick terminates
the heartbeat loop, yet the supervisor does NOT transition to ReconnectWait:
the connection thread stays in `_listen_comments`, which never consults the
heartbeat thread. -/
theorem staleness_no_reconnect_counterexample :
    (tick 31 false true false ⟨true, SupMode.running, 0⟩).hbAlive = false ∧
      (tick 31 false true false ⟨true, SupMode.running, 0⟩).mode ≠
        SupMode.reconnectWait := ⟨rfl, by decide⟩

/-- Claim C5 (amended): when no payload has arrived for more than the
30-second staleness threshold the heartbeat loop terminates itself, but the
supervisor does not react to that termination: it remains Running while
comment fetches succeed and the stop event is unset, and it enters
ReconnectWait only when a comment fetch fails. -/
theorem staleness_behavior :
    (∀ now last, 30 < now - last → hbLoopContinues false now last = false) ∧
      (∀ now gp s, s.mode = SupMode.running →
        (tick now false true gp s).mode = SupMode.running) ∧
      (∀ now gp s, s.mode = SupMode.running →
        (tick now false false gp s).mode = SupMode.reconnectWait) := by
  refine ⟨?_, ?_, ?_⟩
  · intro now last h
    simp [hbLoopContinues, h]
  · intro now gp s h
    simp [tick, connStep, h]
  · intro now gp s h
    simp [tick, connStep, h]

/-- Witness for C5 (amended). -/
theorem staleness_behavior_witness :
    hbLoopContinues false 31 0 = false ∧
      (tick 5 false true false ⟨true, SupMode.running, 0⟩).mode = SupMode.running ∧
      (tick 5 false false false ⟨true, SupMode.running, 0⟩).mode =
        SupMode.reconnectWait :=
  ⟨staleness_behavior.1 31 0 (by decide),
    staleness_behavior.2.1 5 false ⟨true, SupMode.running, 0⟩ rfl,
    staleness_behavior.2.2 5 false ⟨true, SupMode.running, 0⟩ rfl⟩

/-- `split('_', 1)[0]` equals take-up-to the first `_`. -/
theorem splitOnceHead_eq_takeWhile (sep : Nat) (l : List Nat) :
    splitOnceHead sep l = l.takeWhile fun b => !(b == sep) := by
  induction l with
  | nil => rfl
  | cons c r ih =>
    by_cases h : c = sep
    · simp [splitOnceHead, List.takeWhile_cons, h]
    · simp [splitOnceHead, List.takeWhile_cons, h, ih]

/-- Claim C6: `make_sign` is a pure deterministic function; it returns the
hex MD5 digest of `token & t & appKey & body` where `token` is the prefix of
the credential up to and excluding its first `_`, and equal inputs always
yield equal digests. -/
theorem make_sign_spec :
    (∀ m t ak d, make_sign m t ak d =
      md5hex ((m.takeWhile fun b => !(b == 95)) ++ [38] ++ t ++ [38] ++ ak ++ [38] ++ d)) ∧
      (∀ m t ak d m2 t2 ak2 d2, m = m2 → t = t2 → ak = ak2 → d = d2 →
        make_sign m t ak d = make_sign m2 t2 ak2 d2) := by
  constructor
  · intro m t ak d
    unfold make_sign
    rw [splitOnceHead_eq_takeWhile]
  · intro m t ak d m2 t2 ak2 d2 hm ht hak hd
    rw [hm, ht, hak, hd]

/-- Witness for C6 at concrete inputs (the only hypotheses of the second
conjunct are input equalities). -/
theorem make_sign_spec_witness :
    make_sign (pyStr "tok_rest") (pyStr "17") (pyStr "12574478") (pyStr "x") =
      md5hex (((pyStr "tok_rest").takeWhile fun b => !(b == 95)) ++ [38] ++
        pyStr "17" ++ [38] ++ pyStr "12574478" ++ [38] ++ pyStr "x") ∧
      make_sign [] [] [] [] = make_sign [] [] [] [] :=
  ⟨make_sign_spec.1 _ _ _ _,
    make_sign_spec.2 [] [] [] [] [] [] [] [] rfl rfl rfl rfl⟩

/-- Counterexample to claim C9: one comment-poll loop iteration at time 5,
on a response with one comment, CHANGES `_last_message_time` from 0 to 5
(line 358 of the source) — the field is not owned solely by the heartbeat
loop. -/
theorem comment_loop_timestamp_counterexample :
    (listenCommentsIterE 5 sampleCommentRes sampleFetcherSt).toOption.map
        (fun r => r.1.lastMessageTime) = some 5 ∧
      sampleFetcherSt.lastMessageTime = 0 := ⟨rfl, rfl⟩

/-- Claim C9 (amended): the comment poll loop body writes only
`paginationCursor` and `lastActivityInstant` (the latter exactly when the
comment list is non-empty, otherwise it is unchanged); the heartbeat loop
body writes only `lastActivityInstant` (its offset cursor is a loop-local
variable, returned, not a shared field); neither body touches the topic or
the reconnect delay. -/
theorem loop_field_frame :
    (∀ now res s r, listenCommentsIterE now res s = .ok r →
      r.1.topic = s.topic ∧ r.1.reconnectDelay = s.reconnectDelay ∧
        (r.1.lastMessageTime = s.lastMessageTime ∨ r.1.lastMessageTime = now)) ∧
      (∀ now result off s r, sendHeartbeatIterE now result off s = .ok r →
        r.1.topic = s.topic ∧ r.1.reconnectDelay = s.reconnectDelay ∧
          r.1.paginationCtx = s.paginationCtx ∧
          (r.1.lastMessageTime = s.lastMessageTime ∨ r.1.lastMessageTime = now)) := by
  constructor
  · intro now res s r h
    unfold listenCommentsIterE at h
    rcases res with x | b | n | t | ar | kvs <;> try simp at h
    rcases hd1 : pyGet (Json.obj kvs) (pyStr "data") (Json.obj []) with
      x | b | n | t | ar | dkvs <;> rw [hd1] at h <;> try simp at h
    rcases hc1 : pyGet (Json.obj dkvs) (pyStr "comments") (Json.arr []) with
      x | b | n | t | cs | okvs <;> rw [hc1] at h <;> try simp at h
    rcases hm : mapChatE cs with e | evs <;> rw [hm] at h <;> try simp at h
    subst h
    refine ⟨?_, ?_, ?_⟩ <;> dsimp <;> split <;> simp
  · intro now result off s r h
    unfold sendHeartbeatIterE at h
    rcases result with x | b | n | t | ar | kvs <;> try simp at h
    rcases hd1 : pyGet (Json.obj kvs) (pyStr "data") (Json.obj []) with
      x | b | n | t | ar | dkvs <;> rw [hd1] at h <;> try simp at h
    by_cases htr : pyTruthy (pyGet (Json.obj dkvs) (pyStr "timestampList")
        (Json.arr [])) = true
    · rw [if_pos htr] at h
      rcases hts : pyGet (Json.obj dkvs) (pyStr "timestampList") (Json.arr []) with
        x | b | n | t | ts | okvs <;> rw [hts] at h <;> try simp at h
      rcases hl : ts.getLast? with _ | lt <;> rw [hl] at h <;> try simp at h
      rcases lt with x | b | n | t | ar | lkvs <;> try simp at h
      subst h
      exact ⟨rfl, rfl, rfl, Or.inr rfl⟩
    · rw [if_neg htr] at h
      injection h with h2
      subst h2
      exact ⟨rfl, rfl, rfl, Or.inl rfl⟩

/-- Witness for C9 (amended): one concrete iteration of each loop body,
stated in reduced form. -/
theorem loop_field_frame_witness :
    ((none : Option (List Nat)) = none ∧ (1 : Nat) = 1 ∧
        ((5 : Nat) = 0 ∨ (5 : Nat) = 5)) ∧
      ((none : Option (List Nat)) = none ∧ (1 : Nat) = 1 ∧
        (none : Option Json) = none ∧ ((0 : Nat) = 0 ∨ (0 : Nat) = 7)) :=
  ⟨loop_field_frame.1 5 sampleCommentRes sampleFetcherSt
      (⟨some (Json.str (pyStr "p")), 5, 1, none⟩,
        [some (Event.chat (Json.str (pyStr "1")) (Json.str (pyStr "A"))
          (Json.str (pyStr "hello")))]) rfl,
    loop_field_frame.2 7 (Json.obj []) (Json.str (pyStr "0")) sampleFetcherSt
      (sampleFetcherSt, Json.str (pyStr "0"), []) rfl⟩
